import Mathlib

/-!
Verification of the TintaPrintingFYP backend payment-reconciliation core
(`src/index.js`): status normaliser, order resolver, payment recorder,
unmatched-payment sink, order status updater and the POST /payment/callback
handler, shallowly embedded over a functional model of the Firebase
Realtime Database.

Modelling conventions:
* JavaScript values are modelled by `JVal` (undefined, null, NaN, booleans,
  integers, strings, and shallow objects).  JS numbers are modelled over
  `Int`; a non-integer or non-numeric coercion result is the `jnan` marker.
* JS objects are association lists `Obj = List (String × JVal)`; object
  literal / spread semantics (later keys win) are captured by the
  last-match lookup `olookup`.
* The database is a `Store` of association-list collections with
  first-match lookup `alookup`; `set` at a key replaces the entry,
  `update` merges fields.  Query order (`orderByChild ... equalTo`,
  then `Object.keys(...)[0]`) is modelled as first match in list order.
* Wall-clock reads (`new Date().toISOString()`, `Date.now()`) are passed
  in explicitly as `nowIso : String` and `nowMs : Nat`.
* Property reads on the `STATUS_NORMALISER` object literal model the
  prototype chain: a user-controlled key naming an inherited
  `Object.prototype` member (e.g. `constructor`, `toString`, `__proto__`)
  yields the `jproto` marker, a truthy non-string value — exactly what the
  JS `||` chain sees there.
-/

namespace Tinta

/-- Model of a JavaScript value as far as the callback logic inspects it.
`jproto name` is the inherited `Object.prototype` member called `name`
(a function, or for `__proto__` the prototype object itself), surfaced by
property reads on object literals: a truthy, non-string value. -/
inductive JVal where
  | jundefined
  | null
  | jnan
  | jproto (name : String)
  | jbool (b : Bool)
  | jnum (n : Int)
  | jstr (s : String)
  | jobj (fields : List (String × JVal))

/-- A JavaScript object: key/value fields, later entries shadowing earlier
ones (object-literal and spread semantics). -/
abbrev Obj := List (String × JVal)

/-- JS truthiness: `undefined`, `null`, `NaN`, `false`, `0` and `""` are
falsy, everything else (including any object) is truthy. -/
def truthy : JVal → Bool
  | .jundefined => false
  | .null => false
  | .jnan => false
  | .jproto _ => true
  | .jbool b => b
  | .jnum n => n != 0
  | .jstr s => s ≠ ""
  | .jobj _ => true

/-- JS `a || b`: gives `a` when truthy, otherwise `b`. -/
def jOr (a b : JVal) : JVal := if truthy a then a else b

/-- ASCII whitespace, the characters `trim()` strips in these payloads. -/
def isWsChar (c : Char) : Bool := c = ' ' ∨ c = '\t' ∨ c = '\n' ∨ c = '\r'

/-- JS `s.trim()`, modelled over the character list. -/
def trimStr (s : String) : String :=
  String.mk (((s.data.dropWhile isWsChar).reverse.dropWhile isWsChar).reverse)

/-- JS `s.startsWith(p)`, modelled over the character lists. -/
def strStartsWith (s p : String) : Bool :=
  decide (s.data.take p.data.length = p.data)

/-- Whether a value is `null` or `undefined` (the values Firebase rejects
and the ones `??` coalesces). -/
def isNullish : JVal → Bool
  | .jundefined => true
  | .null => true
  | _ => false

/-- JS `a ?? b`: gives `b` when `a` is null or undefined, otherwise `a`. -/
def jCoalesce (a b : JVal) : JVal := if isNullish a then b else a

/-- JS `String(v)` / template-literal coercion. -/
def jToString : JVal → String
  | .jundefined => "undefined"
  | .null => "null"
  | .jnan => "NaN"
  | .jproto n => "function " ++ n ++ "() { [native code] }"
  | .jbool b => if b then "true" else "false"
  | .jnum n => toString n
  | .jstr s => s
  | .jobj _ => "[object Object]"

/-- JS `Number(v)` coercion, restricted to integer numerals; any JS result
that would not be an integer is modelled as `jnan`. -/
def jToNumber : JVal → JVal
  | .jundefined => .jnan
  | .null => .jnum 0
  | .jnan => .jnan
  | .jproto _ => .jnan
  | .jbool b => .jnum (if b then 1 else 0)
  | .jnum n => .jnum n
  | .jstr s =>
    if trimStr s = "" then .jnum 0
    else
      match (trimStr s).toInt? with
      | some n => .jnum n
      | none => .jnan
  | .jobj _ => .jnan

/-- Whether a value is exactly the string `s` (the comparison
`orderByChild(c).equalTo(s)` performs on string-typed children). -/
def jIsStr (v : JVal) (s : String) : Bool :=
  match v with
  | .jstr t => t = s
  | _ => false

mutual

/-- Whether the Realtime Database accepts a value inside `set`: it rejects
`undefined`, `NaN` and functions/prototype objects, and checks objects
recursively. -/
def storableVal : JVal → Bool
  | .jundefined => false
  | .jnan => false
  | .jproto _ => false
  | .null => true
  | .jbool _ => true
  | .jnum _ => true
  | .jstr _ => true
  | .jobj fields => storableFields fields

/-- Whether every field value of an object is storable. -/
def storableFields : List (String × JVal) → Bool
  | [] => true
  | (_, v) :: rest => storableVal v && storableFields rest

end

/-! ### Association-list primitives (collections and objects) -/

/-- First-match lookup in an association list (collection access by key). -/
def alookup {α : Type} : List (String × α) → String → Option α
  | [], _ => none
  | p :: rest, k => if p.1 = k then some p.2 else alookup rest k

/-- Remove every entry with the given key. -/
def removeKey {α : Type} : List (String × α) → String → List (String × α)
  | [], _ => []
  | p :: rest, k => if p.1 = k then removeKey rest k else p :: removeKey rest k

/-- Firebase `ref(path).set(v)`: replace whatever was stored at the key. -/
def setEntry {α : Type} (l : List (String × α)) (k : String) (v : α) :
    List (String × α) :=
  removeKey l k ++ [(k, v)]

/-- Last-match lookup in an object: later fields shadow earlier ones,
as in JS object literals and spreads. -/
def olookup : Obj → String → Option JVal
  | [], _ => none
  | p :: rest, k =>
    match olookup rest k with
    | some v => some v
    | none => if p.1 = k then some p.2 else none

/-- Property read `o[k]`: `undefined` when the key is absent. -/
def oget (o : Obj) (k : String) : JVal :=
  (olookup o k).getD .jundefined

/-- Drop the fields whose value is `null` or `undefined` (the
`cleanData` loop of `saveUnmatchedPayment`). -/
def cleanFields : Obj → Obj
  | [] => []
  | p :: rest => if isNullish p.2 then cleanFields rest else p :: cleanFields rest

/-! ### Lemmas about the association-list primitives -/

theorem alookup_append {α : Type} (a b : List (String × α)) (k : String) :
    alookup (a ++ b) k =
      match alookup a k with
      | some v => some v
      | none => alookup b k := by
  induction a with
  | nil => simp [alookup]
  | cons p rest ih =>
    by_cases h : p.1 = k <;> simp [alookup, h, ih]

theorem alookup_removeKey_self {α : Type} (l : List (String × α)) (k : String) :
    alookup (removeKey l k) k = none := by
  induction l with
  | nil => simp [removeKey, alookup]
  | cons p rest ih =>
    by_cases h : p.1 = k <;> simp [removeKey, alookup, h, ih]

theorem alookup_setEntry_self {α : Type} (l : List (String × α)) (k : String)
    (v : α) : alookup (setEntry l k v) k = some v := by
  simp [setEntry, alookup_append, alookup_removeKey_self, alookup]

theorem olookup_append (a b : Obj) (k : String) :
    olookup (a ++ b) k =
      match olookup b k with
      | some v => some v
      | none => olookup a k := by
  induction a with
  | nil =>
    simp only [List.nil_append]
    cases hb : olookup b k <;> simp [olookup, hb]
  | cons p rest ih =>
    cases hb : olookup b k with
    | some v => simp [olookup, ih, hb]
    | none => simp [olookup, ih, hb]

theorem olookup_append_right_none (a b : Obj) (k : String)
    (h : olookup b k = none) : olookup (a ++ b) k = olookup a k := by
  rw [olookup_append, h]

theorem mem_cleanFields_not_nullish (l : Obj) (p : String × JVal)
    (h : p ∈ cleanFields l) : isNullish p.2 = false := by
  induction l with
  | nil => simp [cleanFields] at h
  | cons q rest ih =>
    by_cases hn : isNullish q.2 = true
    · simp only [cleanFields, hn, if_true] at h
      exact ih h
    · simp only [cleanFields, hn, if_false] at h
      cases h with
      | head => simpa using hn
      | tail _ hmem => exact ih hmem

/-! ### The database model

The Firebase Realtime Database as the callback code uses it: an
availability flag (`db` being non-null) plus the four collections
`orders/`, `payments/`, `payments_by_order/` and `payments_unmatched/`. -/

/-- The document store: `db` availability plus the four collections the
code reads and writes. -/
structure Store where
  avail : Bool
  orders : List (String × Obj)
  payments : List (String × Obj)
  paymentsByOrder : List (String × List (String × Obj))
  paymentsUnmatched : List (String × Obj)

/-- Firebase `ref(coll).orderByChild(child).equalTo(v)` followed by
`Object.keys(snapshot.val())[0]`: the first entry whose `child` field is
the string `v`. -/
def queryByChild (l : List (String × Obj)) (child v : String) :
    Option (String × Obj) :=
  l.find? (fun p => jIsStr (oget p.2 child) v)

/-- The repeated pattern: query by the `billcode` spelling, and if the
snapshot is empty retry with the legacy `billCode` spelling. -/
def queryTwoSpellings (l : List (String × Obj)) (v : String) :
    Option (String × Obj) :=
  match queryByChild l "billcode" v with
  | some r => some r
  | none => queryByChild l "billCode" v

/-- Firebase `ref(coll + key).update(fields)`: merge the fields into the
object stored at the key (creating it when absent). -/
def updateEntry (l : List (String × Obj)) (k : String) (upd : Obj) :
    List (String × Obj) :=
  match alookup l k with
  | some o => setEntry l k (o ++ upd)
  | none => setEntry l k upd

/-! ### Status normalisation (`STATUS_NORMALISER`, `normaliseStatus`) -/

/-- The own properties of the `STATUS_NORMALISER` object literal of
`src/index.js`.  Property access on the literal is `statusTableRead`,
which also surfaces the inherited `Object.prototype` members. -/
def STATUS_NORMALISER (k : String) : Option String :=
  if k = "1" then some "success"
  else if k = "2" then some "pending"
  else if k = "3" then some "failed"
  else if k = "success" then some "success"
  else if k = "pending" then some "pending"
  else if k = "failed" then some "failed"
  else if k = "failure" then some "failed"
  else if k = "cancelled" then some "failed"
  else none

/-- ASCII lowercasing of one character (what `toLowerCase()` does on the
ASCII range all gateway status keywords live in). -/
def lowerChar (c : Char) : Char :=
  if 'A' ≤ c ∧ c ≤ 'Z' then Char.ofNat (c.toNat + 32) else c

/-- JS `s.toLowerCase()`, modelled on the ASCII range. -/
def lowerAscii (s : String) : String :=
  String.mk (s.data.map lowerChar)

/-- The member names an object literal inherits from `Object.prototype`
(V8/Node): property reads on these keys return a truthy function, or for
`__proto__` the prototype object itself. -/
def isProtoKey (k : String) : Bool :=
  k = "constructor" || k = "hasOwnProperty" || k = "isPrototypeOf" ||
  k = "propertyIsEnumerable" || k = "toLocaleString" || k = "toString" ||
  k = "valueOf" || k = "__proto__" || k = "__defineGetter__" ||
  k = "__defineSetter__" || k = "__lookupGetter__" || k = "__lookupSetter__"

/-- JS property read `STATUS_NORMALISER[k]`: an own table entry when
present, otherwise the inherited `Object.prototype` member when `k` names
one, otherwise `undefined`. -/
def statusTableRead (k : String) : JVal :=
  match STATUS_NORMALISER k with
  | some v => .jstr v
  | none => if isProtoKey k = true then .jproto k else .jundefined

/-- Source `normaliseStatus(status)`: falsy input gives `"pending"`;
otherwise `STATUS_NORMALISER[key] || STATUS_NORMALISER[status] ||
'pending'`, where `key` is `String(status).toLowerCase()` and each
property read walks the prototype chain — so a key naming an inherited
`Object.prototype` member yields that (truthy, non-string) member rather
than falling through to `'pending'`. -/
def normaliseStatus (status : JVal) : JVal :=
  if truthy status = false then .jstr "pending"
  else
    jOr (statusTableRead (lowerAscii (jToString status)))
      (jOr (statusTableRead (jToString status)) (.jstr "pending"))

/-- The `ORDER_STATUS_MAP` table of `src/index.js`. -/
def ORDER_STATUS_MAP (s : String) : Option String :=
  if s = "success" then some "PAID"
  else if s = "pending" then some "PENDING_PAYMENT"
  else if s = "failed" then some "PAYMENT_FAILED"
  else none

/-! ### Order resolver (`findOrderByBillcode`, `findOrderFromPayments`) -/

/-- Source `findOrderByBillcode(billcode)`: null when the store is unavailable or
the billcode is falsy; otherwise the first order matching either key
spelling, returned as `{ id: orderId, ...order }`. -/
def findOrderByBillcode (st : Store) (billcode : String) : Option Obj :=
  if st.avail = false ∨ billcode = "" then none
  else
    match queryTwoSpellings st.orders billcode with
    | none => none
    | some (orderId, o) => some (("id", .jstr orderId) :: o)

/-- Source `findOrderFromPayments(billcode)`: look for a prior payment matching
either key spelling; follow its `orderId` to the order record, degrading
to the minimal stand-in `{ id: payment.orderId, userId: payment.userId or
null }` when the order record is gone. -/
def findOrderFromPayments (st : Store) (billcode : String) : Option Obj :=
  if st.avail = false ∨ billcode = "" then none
  else
    match queryTwoSpellings st.payments billcode with
    | none => none
    | some (_, payment) =>
      if truthy (oget payment "orderId") = false then none
      else
        match alookup st.orders (jToString (oget payment "orderId")) with
        | none =>
            some [("id", oget payment "orderId"),
                  ("userId", jOr (oget payment "userId") .null)]
        | some o => some (("id", oget payment "orderId") :: o)

/-! ### Payment recorder (`savePaymentRecord`) -/

/-- The derived payment identifier:
`transaction_id || paymentId || billcode || PAY-Date.now()`. -/
def derivePaymentId (paymentData : Obj) (nowMs : Nat) : JVal :=
  jOr (oget paymentData "transaction_id")
    (jOr (oget paymentData "paymentId")
      (jOr (oget paymentData "billcode")
        (.jstr ("PAY-" ++ toString nowMs))))

/-- The primary payment record built by `savePaymentRecord`. -/
def mkPaymentRecord (paymentData : Obj) (orderId userId : JVal)
    (nowIso : String) (nowMs : Nat) : Obj :=
  [("paymentId", derivePaymentId paymentData nowMs),
   ("orderId", orderId),
   ("userId", userId),
   ("status", normaliseStatus (oget paymentData "status")),
   ("amount", jToNumber (jCoalesce (oget paymentData "amount") (.jnum 0))),
   ("paymentMethod", jOr (oget paymentData "payment_method") (.jstr "toyyibpay")),
   ("createdAt", jOr (oget paymentData "timestamp") (.jstr nowIso)),
   ("billcode", jOr (oget paymentData "billcode") .null),
   ("billCode", jOr (oget paymentData "billcode") .null),
   ("transactionId", jOr (oget paymentData "transaction_id") .null),
   ("toyyibPayOrderId", jOr (oget paymentData "order_id") .null),
   ("signature", jOr (oget paymentData "signature") .null),
   ("rawPayload", jOr (oget paymentData "raw") .null),
   ("updatedAt", .jstr nowIso)]

/-- The `payments_by_order` secondary index entry written alongside the
primary record. -/
def mkByOrderRecord (record : Obj) : Obj :=
  [("paymentId", oget record "paymentId"),
   ("status", oget record "status"),
   ("amount", oget record "amount"),
   ("createdAt", oget record "createdAt"),
   ("updatedAt", oget record "updatedAt")]

/-- Source `savePaymentRecord(paymentData, orderId, userId)`: throws (without
writing) when the store is unavailable or either identifier is falsy;
otherwise writes the primary record at `payments/{paymentId}` and the
secondary index at `payments_by_order/{orderId}/{paymentId}` and returns
the record. -/
def savePaymentRecord (st : Store) (paymentData : Obj) (orderId userId : JVal)
    (nowIso : String) (nowMs : Nat) : Except String Obj × Store :=
  if st.avail = false then
    (.error "Firebase database is not available", st)
  else if truthy orderId = false then
    (.error "Order ID is required to save payment", st)
  else if truthy userId = false then
    (.error "User ID is required to save payment", st)
  else
    let record := mkPaymentRecord paymentData orderId userId nowIso nowMs
    let paymentId := jToString (derivePaymentId paymentData nowMs)
    let orderKey := jToString orderId
    let inner := (alookup st.paymentsByOrder orderKey).getD []
    (.ok record,
     { st with
        payments := setEntry st.payments paymentId record,
        paymentsByOrder :=
          setEntry st.paymentsByOrder orderKey
            (setEntry inner paymentId (mkByOrderRecord record)) })

/-! ### Unmatched-payment sink (`saveUnmatchedPayment`) -/

/-- The identifier the sink stores under:
`transaction_id || billcode || UNMATCHED-Date.now()`. -/
def unmatchedSinkId (paymentData : Obj) (nowMs : Nat) : String :=
  jToString
    (jOr (oget paymentData "transaction_id")
      (jOr (oget paymentData "billcode")
        (.jstr ("UNMATCHED-" ++ toString nowMs))))

/-- Source `saveUnmatchedPayment(paymentData)`: returns null (without raising)
when the store is unavailable; otherwise strips every null/undefined
field, appends `storedAt`, writes the document under
`payments_unmatched/{paymentId}` and returns the identifier. -/
def saveUnmatchedPayment (st : Store) (paymentData : Obj)
    (nowIso : String) (nowMs : Nat) : Option String × Store :=
  if st.avail = false then (none, st)
  else
    let paymentId := unmatchedSinkId paymentData nowMs
    let doc := cleanFields paymentData ++ [("storedAt", .jstr nowIso)]
    (some paymentId,
     { st with paymentsUnmatched := setEntry st.paymentsUnmatched paymentId doc })

/-! ### Order status updater (`updateOrderStatus`) -/

/-- The `adminStatusMap` table of `updateOrderStatus`. -/
def adminStatusMap (s : String) : Option String :=
  if s = "PENDING_PAYMENT" then some "pending"
  else if s = "PAID" then some "approved"
  else if s = "PROCESSING" then some "in-progress"
  else if s = "PRINTING" then some "printing"
  else if s = "COMPLETED" then some "completed"
  else if s = "CANCELLED" then some "cancelled"
  else if s = "PAYMENT_FAILED" then some "pending"
  else none

/-- The merge document `updateOrderStatus` writes:
`{ status, adminStatus, updatedAt, ...extra }` (later fields win). -/
def orderStatusUpdateDoc (status : String) (extra : Obj) (nowIso : String) :
    Obj :=
  let newStatus := (ORDER_STATUS_MAP status).getD status
  let adminStatus := (adminStatusMap newStatus).getD newStatus
  [("status", .jstr newStatus),
   ("adminStatus", .jstr adminStatus),
   ("updatedAt", .jstr nowIso)] ++ extra

/-- Source `updateOrderStatus(orderId, status, extra)`: a no-op when the store is
unavailable or the orderId is falsy; otherwise merges the update document
into `orders/{orderId}`. -/
def updateOrderStatus (st : Store) (orderId : JVal) (status : String)
    (extra : Obj) (nowIso : String) : Store :=
  if st.avail = false ∨ truthy orderId = false then st
  else
    { st with
        orders := updateEntry st.orders (jToString orderId)
          (orderStatusUpdateDoc status extra nowIso) }

/-! ### The POST /payment/callback handler -/

/-- Ghost instrumentation: which persistence operations the handler
invoked, in order. -/
inductive Event where
  | savedPayment (pid : String)
  | savedUnmatched (pid : Option String)
  | updatedOrder (oid canon : String)
  | backfilled (oid : String)
deriving DecidableEq

/-- The handler's HTTP reply, final store and invocation trace. -/
structure CallbackResult where
  status : Nat
  body : Obj
  store : Store
  events : List Event

/-- Source `(payload.billcode || payload.billCode || payload.bill_code ||
'').toString().trim()`. -/
def callbackBillcode (payload : Obj) : String :=
  trimStr (jToString
    (jOr (oget payload "billcode")
      (jOr (oget payload "billCode")
        (jOr (oget payload "bill_code") (.jstr "")))))

/-- Source `payload.status || payload.statuscode || payload.billpaymentStatus ||
'pending'`. -/
def callbackPaymentStatus (payload : Obj) : JVal :=
  jOr (oget payload "status")
    (jOr (oget payload "statuscode")
      (jOr (oget payload "billpaymentStatus") (.jstr "pending")))

/-- The `paymentData` object assembled by the handler. -/
def callbackPaymentData (payload : Obj) (nowIso : String) : Obj :=
  [("billcode", .jstr (callbackBillcode payload)),
   ("status", callbackPaymentStatus payload),
   ("amount",
     jOr (oget payload "amount")
       (jOr (oget payload "billpaymentAmount") (oget payload "totalAmount"))),
   ("payment_method",
     jOr (oget payload "payment_method")
       (jOr (oget payload "method") (.jstr "toyyibpay"))),
   ("timestamp",
     jOr (oget payload "timestamp")
       (jOr (oget payload "billpaymentTime") (.jstr nowIso))),
   ("transaction_id",
     jOr (oget payload "transaction_id")
       (jOr (oget payload "billpaymentInvoiceNo") (oget payload "invoice_no"))),
   ("order_id",
     jOr (oget payload "order_id")
       (jOr (oget payload "externalRef")
         (oget payload "billExternalReferenceNo"))),
   ("signature", oget payload "signature"),
   ("raw", .jobj payload)]

/-- The handler's fallback chain of resolver lookups (source lines
363-367): `findOrderByBillcode`, and when that yields nothing,
`findOrderFromPayments`. -/
def resolveOrder (st : Store) (billcode : String) : Option Obj :=
  match findOrderByBillcode st billcode with
  | some o => some o
  | none => findOrderFromPayments st billcode

/-- The userId candidate chain read off a fetched order record in the
heuristic order-reference path:
`userId || userID || customerId || customerID || null`. -/
def heuristicUserId (orderData : Obj) : JVal :=
  jOr (oget orderData "userId")
    (jOr (oget orderData "userID")
      (jOr (oget orderData "customerId")
        (jOr (oget orderData "customerID") .null)))

/-- Resolution stage of the handler (source lines 363-403): the two
resolver lookups, then the heuristic acceptance of a payload-supplied
order reference with opportunistic billcode backfill.  Returns the
resolved `orderId` and `userId` values, the store (possibly mutated by
the backfill) and the trace. -/
def resolveStage (st : Store) (payload : Obj) (nowIso : String) :
    JVal × JVal × Store × List Event :=
  let billcode := callbackBillcode payload
  let paymentData := callbackPaymentData payload nowIso
  let order := resolveOrder st billcode
  let orderId : JVal :=
    match order with
    | none => .null
    | some o => jOr (oget o "id") .null
  let userId : JVal :=
    match order with
    | none => .null
    | some o =>
      jOr (oget o "userId")
        (jOr (oget o "userID") (jOr (oget o "customerId") .null))
  if truthy orderId = false ∧ truthy (oget paymentData "order_id") = true then
    let potentialOrderId := trimStr (jToString (oget paymentData "order_id"))
    if strStartsWith potentialOrderId "ORD" = true ∨ potentialOrderId.length > 10 then
      match alookup st.orders potentialOrderId with
      | some orderData =>
        if truthy (oget orderData "billcode") = false ∧
            truthy (oget orderData "billCode") = false then
          (.jstr potentialOrderId, heuristicUserId orderData,
           { st with
              orders := updateEntry st.orders potentialOrderId
                [("billcode", .jstr billcode), ("billCode", .jstr billcode)] },
           [.backfilled potentialOrderId])
        else
          (.jstr potentialOrderId, heuristicUserId orderData, st, [])
      | none => (.jstr potentialOrderId, userId, st, [])
    else (orderId, userId, st, [])
  else (orderId, userId, st, [])

/-- The `extra` fields passed to `updateOrderStatus` on the success
branch. -/
def successExtra (record : Obj) (billcode nowIso : String) : Obj :=
  [("paymentId", oget record "paymentId"),
   ("billcode", .jstr billcode),
   ("paymentDetails",
     .jobj [("transactionId", oget record "transactionId"),
            ("method", oget record "paymentMethod"),
            ("amount", oget record "amount"),
            ("confirmedAt", .jstr nowIso)])]

/-- The `extra` fields passed to `updateOrderStatus` on the failed
branch. -/
def failedExtra (record : Obj) (billcode nowIso : String) : Obj :=
  [("paymentId", oget record "paymentId"),
   ("billcode", .jstr billcode),
   ("paymentDetails",
     .jobj [("transactionId", oget record "transactionId"),
            ("method", oget record "paymentMethod"),
            ("amount", oget record "amount"),
            ("failedAt", .jstr nowIso)])]

/-- The success acknowledgement body. -/
def okBody (record : Obj) (orderId : JVal) : Obj :=
  [("received", .jbool true),
   ("success", .jbool true),
   ("orderId", orderId),
   ("paymentId", oget record "paymentId"),
   ("status", oget record "status")]

/-- Source `app.post('/payment/callback')` (lines 335-478).  The entry
`throw` on a null `db` is caught by the surrounding try/catch, producing
the 500 reply; every reconciliation outcome replies 200.  An error from
`savePaymentRecord` would likewise be caught into the 500 reply. -/
def paymentCallback (st : Store) (payload : Obj) (nowIso : String)
    (nowMs : Nat) : CallbackResult :=
  if st.avail = false then
    ⟨500,
     [("received", .jbool true), ("success", .jbool false),
      ("error", .jstr "Firebase Admin is not initialised. Set service credentials.")],
     st, []⟩
  else
    let billcode := callbackBillcode payload
    if billcode = "" then
      ⟨200, [("received", .jbool true), ("error", .jstr "Missing billcode")],
       st, []⟩
    else
      let paymentStatus := callbackPaymentStatus payload
      let paymentData := callbackPaymentData payload nowIso
      match resolveStage st payload nowIso with
      | (orderId, userId, st1, evs) =>
        if truthy orderId = false then
          let r := saveUnmatchedPayment st1
            (paymentData ++ [("note", .jstr "Order ID not resolved")]) nowIso nowMs
          ⟨200,
           [("received", .jbool true), ("saved", .jbool false),
            ("warning",
              .jstr "Order ID not resolved. Payment stored in payments_unmatched.")],
           r.2, evs ++ [.savedUnmatched r.1]⟩
        else if truthy userId = false then
          let r := saveUnmatchedPayment st1
            (paymentData ++
              [("orderId", orderId),
               ("note", .jstr "Order found but userId missing")]) nowIso nowMs
          ⟨200,
           [("received", .jbool true), ("saved", .jbool false),
            ("warning",
              .jstr ("Order " ++ jToString orderId ++
                " found but userId is missing. Payment stored in payments_unmatched with order reference."))],
           r.2, evs ++ [.savedUnmatched r.1]⟩
        else
          match savePaymentRecord st1 paymentData orderId userId nowIso nowMs with
          | (.error msg, st2) =>
            ⟨500,
             [("received", .jbool true), ("success", .jbool false),
              ("error", .jstr msg)],
             st2, evs⟩
          | (.ok record, st2) =>
            let evs2 := evs ++ [.savedPayment (jToString (oget record "paymentId"))]
            if jIsStr (normaliseStatus paymentStatus) "success" = true then
              ⟨200, okBody record orderId,
               updateOrderStatus st2 orderId "success"
                 (successExtra record billcode nowIso) nowIso,
               evs2 ++ [.updatedOrder (jToString orderId) "success"]⟩
            else if jIsStr (normaliseStatus paymentStatus) "failed" = true then
              ⟨200, okBody record orderId,
               updateOrderStatus st2 orderId "failed"
                 (failedExtra record billcode nowIso) nowIso,
               evs2 ++ [.updatedOrder (jToString orderId) "failed"]⟩
            else
              ⟨200, okBody record orderId, st2, evs2⟩

/-! ### Helper lemmas about the status tables -/

theorem STATUS_NORMALISER_keys (s r : String) (h : STATUS_NORMALISER s = some r) :
    s = "1" ∨ s = "2" ∨ s = "3" ∨ s = "success" ∨ s = "pending" ∨
    s = "failed" ∨ s = "failure" ∨ s = "cancelled" := by
  unfold STATUS_NORMALISER at h
  split_ifs at h <;> simp_all

theorem STATUS_NORMALISER_values (k r : String)
    (h : STATUS_NORMALISER k = some r) :
    r = "success" ∨ r = "pending" ∨ r = "failed" := by
  unfold STATUS_NORMALISER at h
  split_ifs at h <;> simp_all

theorem STATUS_NORMALISER_raw_of_lower_none (s : String)
    (h : STATUS_NORMALISER (lowerAscii s) = none) :
    STATUS_NORMALISER s = none := by
  cases hs : STATUS_NORMALISER s with
  | none => rfl
  | some r =>
    exfalso
    rcases STATUS_NORMALISER_keys s r hs with h1|h1|h1|h1|h1|h1|h1|h1 <;>
      (subst h1; revert h; decide)

theorem truthy_jproto (x : String) : truthy (JVal.jproto x) = true := rfl

theorem STATUS_NORMALISER_some_truthy (k r : String)
    (h : STATUS_NORMALISER k = some r) : truthy (.jstr r) = true := by
  rcases STATUS_NORMALISER_values k r h with h1 | h1 | h1 <;> (subst h1; decide)

theorem statusTableRead_shapes (k : String) :
    (∃ r, STATUS_NORMALISER k = some r ∧ statusTableRead k = .jstr r) ∨
    (STATUS_NORMALISER k = none ∧ isProtoKey k = true ∧
      statusTableRead k = .jproto k) ∨
    (STATUS_NORMALISER k = none ∧ isProtoKey k = false ∧
      statusTableRead k = .jundefined) := by
  unfold statusTableRead
  cases h : STATUS_NORMALISER k with
  | some r => exact Or.inl ⟨r, rfl, rfl⟩
  | none =>
    cases hp : isProtoKey k with
    | true => exact Or.inr (Or.inl ⟨rfl, rfl, by simp⟩)
    | false =>
      refine Or.inr (Or.inr ⟨rfl, rfl, ?_⟩)
      rw [if_neg (by simp [hp])]

/-! ### Claim theorems -/

/-- Claim C5, amended: the status normaliser follows the fixed table
case-insensitively on string keys and yields pending for any other or
absent input EXCEPT when a lookup key names an inherited
`Object.prototype` member — first the lowercased key, then, after a
lowercased-key miss, the raw key — in which case the inherited member (a
truthy non-string value) is returned; the normaliser is therefore total
into the table values plus the inherited members, not into
success/pending/failed alone. -/
theorem C5_normaliseStatus_total_and_table :
    (∀ v : JVal,
      (∃ c, normaliseStatus v = .jstr c ∧
        (c = "success" ∨ c = "pending" ∨ c = "failed")) ∨
      (∃ n, normaliseStatus v = .jproto n ∧ isProtoKey n = true)) ∧
    (∀ s r : String, s ≠ "" → STATUS_NORMALISER (lowerAscii s) = some r →
      normaliseStatus (.jstr s) = .jstr r) ∧
    (∀ s : String, STATUS_NORMALISER (lowerAscii s) = none →
      isProtoKey (lowerAscii s) = false → isProtoKey s = false →
      normaliseStatus (.jstr s) = .jstr "pending") ∧
    (∀ s : String, s ≠ "" → STATUS_NORMALISER (lowerAscii s) = none →
      isProtoKey (lowerAscii s) = true →
      normaliseStatus (.jstr s) = .jproto (lowerAscii s)) ∧
    (∀ s : String, s ≠ "" → STATUS_NORMALISER (lowerAscii s) = none →
      isProtoKey (lowerAscii s) = false → isProtoKey s = true →
      normaliseStatus (.jstr s) = .jproto s) ∧
    (∀ v : JVal, truthy v = false → normaliseStatus v = .jstr "pending") ∧
    normaliseStatus (.jstr "1") = .jstr "success" ∧
    normaliseStatus (.jstr "2") = .jstr "pending" ∧
    normaliseStatus (.jstr "3") = .jstr "failed" ∧
    normaliseStatus (.jstr "success") = .jstr "success" ∧
    normaliseStatus (.jstr "pending") = .jstr "pending" ∧
    normaliseStatus (.jstr "failed") = .jstr "failed" ∧
    normaliseStatus (.jstr "failure") = .jstr "failed" ∧
    normaliseStatus (.jstr "cancelled") = .jstr "failed" ∧
    normaliseStatus (.jstr "") = .jstr "pending" ∧
    normaliseStatus .null = .jstr "pending" ∧
    normaliseStatus .jundefined = .jstr "pending" ∧
    normaliseStatus (.jstr "unknown") = .jstr "pending" := by
  refine ⟨?_, ?_, ?_, ?_, ?_, ?_, by rfl, by rfl, by rfl, by rfl, by rfl,
    by rfl, by rfl, by rfl, by rfl, by rfl, by rfl, by rfl⟩
  · intro v
    unfold normaliseStatus
    by_cases ht : truthy v = false
    · rw [if_pos ht]
      exact Or.inl ⟨"pending", rfl, Or.inr (Or.inl rfl)⟩
    · rw [if_neg ht]
      unfold jOr
      rcases statusTableRead_shapes (lowerAscii (jToString v)) with
        ⟨r, hr, he⟩ | ⟨_, hp, he⟩ | ⟨_, _, he⟩
      · rw [he, if_pos (STATUS_NORMALISER_some_truthy _ _ hr)]
        exact Or.inl ⟨r, rfl, STATUS_NORMALISER_values _ _ hr⟩
      · rw [he, if_pos (truthy_jproto (lowerAscii (jToString v)))]
        exact Or.inr ⟨_, rfl, hp⟩
      · rw [he, if_neg (by decide : ¬ truthy JVal.jundefined = true)]
        rcases statusTableRead_shapes (jToString v) with
          ⟨r, hr, he2⟩ | ⟨_, hp2, he2⟩ | ⟨_, _, he2⟩
        · rw [he2, if_pos (STATUS_NORMALISER_some_truthy _ _ hr)]
          exact Or.inl ⟨r, rfl, STATUS_NORMALISER_values _ _ hr⟩
        · rw [he2, if_pos (truthy_jproto (jToString v))]
          exact Or.inr ⟨_, rfl, hp2⟩
        · rw [he2, if_neg (by decide : ¬ truthy JVal.jundefined = true)]
          exact Or.inl ⟨"pending", rfl, Or.inr (Or.inl rfl)⟩
  · intro s r hs hr
    have ht : ¬ truthy (.jstr s) = false := by simp [truthy, hs]
    unfold normaliseStatus
    rw [if_neg ht]
    unfold jOr
    simp only [jToString]
    rw [show statusTableRead (lowerAscii s) = .jstr r by
          unfold statusTableRead; rw [hr]]
    rw [if_pos (STATUS_NORMALISER_some_truthy _ _ hr)]
  · intro s h hp1 hp2
    by_cases hs : s = ""
    · subst hs; rfl
    · have ht : ¬ truthy (.jstr s) = false := by simp [truthy, hs]
      unfold normaliseStatus
      rw [if_neg ht]
      unfold jOr
      simp only [jToString]
      rw [show statusTableRead (lowerAscii s) = .jundefined by
            unfold statusTableRead; rw [h, if_neg (by simp [hp1])]]
      rw [show statusTableRead s = .jundefined by
            unfold statusTableRead
            rw [STATUS_NORMALISER_raw_of_lower_none s h,
              if_neg (by simp [hp2])]]
      rw [if_neg (by decide : ¬ truthy JVal.jundefined = true),
        if_neg (by decide : ¬ truthy JVal.jundefined = true)]
  · intro s hs h hp
    have ht : ¬ truthy (.jstr s) = false := by simp [truthy, hs]
    unfold normaliseStatus
    rw [if_neg ht]
    unfold jOr
    simp only [jToString]
    rw [show statusTableRead (lowerAscii s) = .jproto (lowerAscii s) by
          unfold statusTableRead; rw [h, if_pos hp]]
    rw [if_pos (truthy_jproto (lowerAscii s))]
  · intro s hs h hp1 hp2
    have ht : ¬ truthy (.jstr s) = false := by simp [truthy, hs]
    unfold normaliseStatus
    rw [if_neg ht]
    unfold jOr
    simp only [jToString]
    rw [show statusTableRead (lowerAscii s) = .jundefined by
          unfold statusTableRead; rw [h, if_neg (by simp [hp1])]]
    rw [show statusTableRead s = .jproto s by
          unfold statusTableRead
          rw [STATUS_NORMALISER_raw_of_lower_none s h, if_pos hp2]]
    rw [if_neg (by decide : ¬ truthy JVal.jundefined = true),
      if_pos (truthy_jproto s)]
  · intro v htv
    unfold normaliseStatus
    rw [if_pos htv]

/-- Counterexample for C5 as frozen: the normaliser is not total into the
three canonical strings.  Input "constructor" is hit by the lowercased-key
lookup and input "toString" by the raw-key lookup after the lowercased
miss; both return the inherited `Object.prototype` member — a truthy value
that is none of the strings success, pending or failed. -/
theorem C5_counterexample :
    normaliseStatus (.jstr "constructor") = .jproto "constructor" ∧
    normaliseStatus (.jstr "toString") = .jproto "toString" ∧
    jIsStr (normaliseStatus (.jstr "constructor")) "success" = false ∧
    jIsStr (normaliseStatus (.jstr "constructor")) "pending" = false ∧
    jIsStr (normaliseStatus (.jstr "constructor")) "failed" = false ∧
    truthy (normaliseStatus (.jstr "constructor")) = true := by
  refine ⟨?_, ?_, ?_, ?_, ?_, ?_⟩ <;> rfl

/-- Witness for C5: the table applied at concrete inputs — a mixed-case
keyword, an unknown keyword, a falsy input, and a prototype-member name. -/
theorem C5_witness :
    normaliseStatus (.jstr "CANCELLED") = .jstr "failed" ∧
    normaliseStatus (.jstr "Failure") = .jstr "failed" ∧
    normaliseStatus (.jstr "whatever") = .jstr "pending" ∧
    normaliseStatus (.jbool false) = .jstr "pending" ∧
    normaliseStatus (.jstr "CONSTRUCTOR") = .jproto "constructor" :=
  ⟨C5_normaliseStatus_total_and_table.2.1 "CANCELLED" "failed"
      (by decide) (by decide),
   C5_normaliseStatus_total_and_table.2.1 "Failure" "failed"
      (by decide) (by decide),
   C5_normaliseStatus_total_and_table.2.2.1 "whatever"
      (by decide) (by decide) (by decide),
   C5_normaliseStatus_total_and_table.2.2.2.2.2.1 (.jbool false) rfl,
   C5_normaliseStatus_total_and_table.2.2.2.1 "CONSTRUCTOR"
      (by decide) (by decide) (by decide)⟩


/-- Claim C2: with orderId or userId missing, the payment recorder raises
and performs no store write — neither the primary payment record nor the
payments_by_order secondary index entry is written (the returned store is
exactly the input store). -/
theorem C2_savePaymentRecord_requires_ids (st : Store) (paymentData : Obj)
    (orderId userId : JVal) (nowIso : String) (nowMs : Nat)
    (h : truthy orderId = false ∨ truthy userId = false) :
    ∃ msg, savePaymentRecord st paymentData orderId userId nowIso nowMs =
      (.error msg, st) := by
  unfold savePaymentRecord
  by_cases ha : st.avail = false
  · exact ⟨_, by rw [if_pos ha]⟩
  · rcases h with h | h
    · exact ⟨_, by rw [if_neg ha, if_pos h]⟩
    · by_cases ho : truthy orderId = false
      · exact ⟨_, by rw [if_neg ha, if_pos ho]⟩
      · exact ⟨_, by rw [if_neg ha, if_neg ho, if_pos h]⟩

/-- Witness for C2: a null orderId and a null userId each make the
recorder fail with the store untouched. -/
theorem C2_witness :
    (∃ msg, savePaymentRecord ⟨true, [], [], [], []⟩ [] .null (.jstr "u1") "t" 0 =
      (.error msg, ⟨true, [], [], [], []⟩)) ∧
    (∃ msg, savePaymentRecord ⟨true, [], [], [], []⟩ [] (.jstr "o1") .null "t" 0 =
      (.error msg, ⟨true, [], [], [], []⟩)) :=
  ⟨C2_savePaymentRecord_requires_ids ⟨true, [], [], [], []⟩ [] .null (.jstr "u1")
      "t" 0 (Or.inl rfl),
   C2_savePaymentRecord_requires_ids ⟨true, [], [], [], []⟩ [] (.jstr "o1") .null
      "t" 0 (Or.inr rfl)⟩

theorem not_nullish_ne (v : JVal) (h : isNullish v = false) :
    v ≠ JVal.null ∧ v ≠ JVal.jundefined := by
  cases v <;> simp_all [isNullish]

/-- Claim C7: the unmatched sink strips every null/undefined-valued field
before writing, so the stored document contains none; when the store is
unavailable the sink returns null rather than raising. -/
theorem C7_saveUnmatchedPayment_clean (st : Store) (paymentData : Obj)
    (nowIso : String) (nowMs : Nat) :
    (st.avail = false →
      saveUnmatchedPayment st paymentData nowIso nowMs = (none, st)) ∧
    (st.avail = true →
      ∃ doc,
        alookup (saveUnmatchedPayment st paymentData nowIso nowMs).2.paymentsUnmatched
            (unmatchedSinkId paymentData nowMs) = some doc ∧
        (saveUnmatchedPayment st paymentData nowIso nowMs).1 =
          some (unmatchedSinkId paymentData nowMs) ∧
        ∀ p ∈ doc, p.2 ≠ JVal.null ∧ p.2 ≠ JVal.jundefined) := by
  constructor
  · intro ha
    unfold saveUnmatchedPayment
    rw [if_pos ha]
  · intro ha
    have ha' : ¬ st.avail = false := by simp [ha]
    unfold saveUnmatchedPayment
    rw [if_neg ha']
    refine ⟨cleanFields paymentData ++ [("storedAt", JVal.jstr nowIso)],
      alookup_setEntry_self _ _ _, rfl, ?_⟩
    intro p hp
    rcases List.mem_append.mp hp with hmem | hmem
    · exact not_nullish_ne p.2 (mem_cleanFields_not_nullish _ p hmem)
    · have hp2 : p = ("storedAt", JVal.jstr nowIso) := by simpa using hmem
      rw [hp2]
      simp

/-- Witness for C7: a payload with null, undefined and honest fields. -/
theorem C7_witness :
    (saveUnmatchedPayment ⟨false, [], [], [], []⟩
      [("billcode", .jstr "B")] "t" 0 = (none, ⟨false, [], [], [], []⟩)) ∧
    ∃ doc,
      alookup (saveUnmatchedPayment ⟨true, [], [], [], []⟩
          [("billcode", .jstr "B"), ("signature", .null), ("amount", .jundefined)]
          "t" 0).2.paymentsUnmatched
        (unmatchedSinkId
          [("billcode", .jstr "B"), ("signature", .null), ("amount", .jundefined)] 0) =
        some doc ∧
      (saveUnmatchedPayment ⟨true, [], [], [], []⟩
          [("billcode", .jstr "B"), ("signature", .null), ("amount", .jundefined)]
          "t" 0).1 =
        some (unmatchedSinkId
          [("billcode", .jstr "B"), ("signature", .null), ("amount", .jundefined)] 0) ∧
      ∀ p ∈ doc, p.2 ≠ JVal.null ∧ p.2 ≠ JVal.jundefined :=
  ⟨(C7_saveUnmatchedPayment_clean ⟨false, [], [], [], []⟩
      [("billcode", .jstr "B")] "t" 0).1 rfl,
   (C7_saveUnmatchedPayment_clean ⟨true, [], [], [], []⟩
      [("billcode", .jstr "B"), ("signature", .null), ("amount", .jundefined)]
      "t" 0).2 rfl⟩

theorem oget_updateEntry_self (l : List (String × Obj)) (k : String)
    (upd : Obj) (f : String) :
    oget ((alookup (updateEntry l k upd) k).getD []) f =
      match olookup upd f with
      | some v => v
      | none => oget ((alookup l k).getD []) f := by
  unfold updateEntry
  cases h : alookup l k with
  | some o =>
    rw [alookup_setEntry_self]
    simp only [Option.getD_some, oget, olookup_append]
    cases h2 : olookup upd f <;> simp
  | none =>
    rw [alookup_setEntry_self]
    simp only [Option.getD_some, Option.getD_none, oget]
    cases h2 : olookup upd f <;> simp [olookup]

/-- Claim C8: the order status updater writes the business status per the
fixed map and the admin label per the second fixed table, merges the
caller-supplied extra fields into the same update, and is a no-op (not an
error) when orderId is falsy or the store is unavailable. -/
theorem C8_updateOrderStatus_spec (st : Store) (orderId : JVal) (extra : Obj)
    (nowIso : String) :
    ((st.avail = false ∨ truthy orderId = false) →
      ∀ s, updateOrderStatus st orderId s extra nowIso = st) ∧
    ORDER_STATUS_MAP "success" = some "PAID" ∧
    ORDER_STATUS_MAP "pending" = some "PENDING_PAYMENT" ∧
    ORDER_STATUS_MAP "failed" = some "PAYMENT_FAILED" ∧
    adminStatusMap "PENDING_PAYMENT" = some "pending" ∧
    adminStatusMap "PAID" = some "approved" ∧
    adminStatusMap "PROCESSING" = some "in-progress" ∧
    adminStatusMap "PRINTING" = some "printing" ∧
    adminStatusMap "COMPLETED" = some "completed" ∧
    adminStatusMap "CANCELLED" = some "cancelled" ∧
    adminStatusMap "PAYMENT_FAILED" = some "pending" ∧
    (st.avail = true → truthy orderId = true →
      olookup extra "status" = none → olookup extra "adminStatus" = none →
      ∀ s bs asq, ORDER_STATUS_MAP s = some bs → adminStatusMap bs = some asq →
        oget ((alookup (updateOrderStatus st orderId s extra nowIso).orders
            (jToString orderId)).getD []) "status" = .jstr bs ∧
        oget ((alookup (updateOrderStatus st orderId s extra nowIso).orders
            (jToString orderId)).getD []) "adminStatus" = .jstr asq ∧
        (∀ k v, olookup extra k = some v →
          oget ((alookup (updateOrderStatus st orderId s extra nowIso).orders
              (jToString orderId)).getD []) k = v)) := by
  refine ⟨?_, rfl, rfl, rfl, rfl, rfl, rfl, rfl, rfl, rfl, rfl, ?_⟩
  · intro h s
    unfold updateOrderStatus
    rw [if_pos h]
  · intro ha ho hes hea s bs asq hmap hadm
    have hcond : ¬ (st.avail = false ∨ truthy orderId = false) := by
      simp [ha, ho]
    unfold updateOrderStatus
    rw [if_neg hcond]
    have hdoc : orderStatusUpdateDoc s extra nowIso =
        [("status", .jstr bs), ("adminStatus", .jstr asq),
         ("updatedAt", .jstr nowIso)] ++ extra := by
      unfold orderStatusUpdateDoc
      rw [hmap]
      simp only [Option.getD_some]
      rw [hadm]
      simp only [Option.getD_some]
    refine ⟨?_, ?_, ?_⟩
    · rw [oget_updateEntry_self, hdoc, olookup_append, hes]
      simp [olookup]
    · rw [oget_updateEntry_self, hdoc, olookup_append, hea]
      simp [olookup]
    · intro k v hk
      rw [oget_updateEntry_self, hdoc, olookup_append, hk]

/-- Witness for C8 at a concrete store, orderId and extra document. -/
theorem C8_witness :
    oget ((alookup (updateOrderStatus
        ⟨true, [("O1", [("status", .jstr "PENDING_PAYMENT")])], [], [], []⟩
        (.jstr "O1") "success" [("paymentId", .jstr "p1")] "t").orders
        "O1").getD []) "status" = .jstr "PAID" ∧
    oget ((alookup (updateOrderStatus
        ⟨true, [("O1", [("status", .jstr "PENDING_PAYMENT")])], [], [], []⟩
        (.jstr "O1") "success" [("paymentId", .jstr "p1")] "t").orders
        "O1").getD []) "adminStatus" = .jstr "approved" ∧
    oget ((alookup (updateOrderStatus
        ⟨true, [("O1", [("status", .jstr "PENDING_PAYMENT")])], [], [], []⟩
        (.jstr "O1") "success" [("paymentId", .jstr "p1")] "t").orders
        "O1").getD []) "paymentId" = .jstr "p1" ∧
    updateOrderStatus ⟨true, [], [], [], []⟩ .null "success" [] "t" =
      ⟨true, [], [], [], []⟩ := by
  have h := (C8_updateOrderStatus_spec
    ⟨true, [("O1", [("status", .jstr "PENDING_PAYMENT")])], [], [], []⟩
    (.jstr "O1") [("paymentId", .jstr "p1")] "t").2.2.2.2.2.2.2.2.2.2.2
    rfl rfl rfl rfl "success" "PAID" "approved" rfl rfl
  have h0 := (C8_updateOrderStatus_spec ⟨true, [], [], [], []⟩ .null [] "t").1
    (Or.inr rfl) "success"
  exact ⟨h.1, h.2.1, h.2.2 "paymentId" (.jstr "p1") rfl, h0⟩

/-- Claim C3: resolver fallbacks: an order stored under the legacy
`billCode` spelling only is still found; when no order matches either
spelling but a prior payment references the billing code (under either
spelling), the resolver returns that payment's order, or — if the order
record no longer exists — a stand-in containing only the order identifier
and the user identifier recorded on the prior payment (null if absent). -/
theorem C3_resolver_fallbacks (st : Store) (bc : String)
    (ha : st.avail = true) (hbc : bc ≠ "") :
    (∀ oid o, queryByChild st.orders "billcode" bc = none →
      queryByChild st.orders "billCode" bc = some (oid, o) →
      resolveOrder st bc = some (("id", .jstr oid) :: o)) ∧
    (queryTwoSpellings st.orders bc = none →
      ∀ pid p, queryTwoSpellings st.payments bc = some (pid, p) →
        truthy (oget p "orderId") = true →
        ((∀ o, alookup st.orders (jToString (oget p "orderId")) = some o →
            resolveOrder st bc = some (("id", oget p "orderId") :: o)) ∧
         (alookup st.orders (jToString (oget p "orderId")) = none →
            resolveOrder st bc =
              some [("id", oget p "orderId"),
                    ("userId", jOr (oget p "userId") .null)]))) := by
  have hcond : ¬ (st.avail = false ∨ bc = "") := by simp [ha, hbc]
  constructor
  · intro oid o h1 h2
    unfold resolveOrder findOrderByBillcode queryTwoSpellings
    rw [if_neg hcond, h1, h2]
  · intro h0 pid p hp ht
    have ht' : ¬ truthy (oget p "orderId") = false := by simp [ht]
    have hby : findOrderByBillcode st bc = none := by
      unfold findOrderByBillcode
      rw [if_neg hcond, h0]
    constructor
    · intro o horder
      simp only [resolveOrder, hby]
      simp [findOrderFromPayments, hcond, hp, ht, horder]
    · intro horder
      simp only [resolveOrder, hby]
      simp [findOrderFromPayments, hcond, hp, ht, horder]

/-- Witness for C3: a store whose only order uses the legacy spelling, and
a second store where only a prior payment references the billing code. -/
theorem C3_witness :
    resolveOrder ⟨true, [("O1", [("billCode", .jstr "B1")])], [], [], []⟩ "B1" =
      some (("id", .jstr "O1") :: [("billCode", .jstr "B1")]) ∧
    resolveOrder ⟨true, [],
        [("P1", [("billcode", .jstr "B2"), ("orderId", .jstr "O2"),
                 ("userId", .jstr "u2")])], [], []⟩ "B2" =
      some [("id", .jstr "O2"), ("userId", .jstr "u2")] := by
  constructor
  · exact (C3_resolver_fallbacks
      ⟨true, [("O1", [("billCode", .jstr "B1")])], [], [], []⟩ "B1"
      rfl (by decide)).1 "O1" [("billCode", .jstr "B1")] rfl rfl
  · exact ((C3_resolver_fallbacks ⟨true, [],
      [("P1", [("billcode", .jstr "B2"), ("orderId", .jstr "O2"),
               ("userId", .jstr "u2")])], [], []⟩ "B2"
      rfl (by decide)).2 rfl "P1"
      [("billcode", .jstr "B2"), ("orderId", .jstr "O2"), ("userId", .jstr "u2")]
      rfl rfl).2 rfl

/-- Claim C10: on the heuristic order-reference path the billcode backfill
happens before the userId check: here an accepted external reference names
an existing order with no billcode fields and no userId, the callback's
final outcome is the unmatched sink with a saved:false, warning-carrying
200 reply — yet the orders store has been mutated, the order now carrying
the billing code under both spellings. -/
theorem C10_backfill_despite_unmatched :
    (paymentCallback ⟨true, [("ORD1", [])], [], [], []⟩
        [("billcode", .jstr "BC1"), ("order_id", .jstr "ORD1")] "T0" 7).status =
      200 ∧
    oget (paymentCallback ⟨true, [("ORD1", [])], [], [], []⟩
        [("billcode", .jstr "BC1"), ("order_id", .jstr "ORD1")] "T0" 7).body
      "saved" = .jbool false ∧
    olookup (paymentCallback ⟨true, [("ORD1", [])], [], [], []⟩
        [("billcode", .jstr "BC1"), ("order_id", .jstr "ORD1")] "T0" 7).body
      "warning" =
      some (.jstr
        "Order ORD1 found but userId is missing. Payment stored in payments_unmatched with order reference.") ∧
    alookup (⟨true, [("ORD1", [])], [], [], []⟩ : Store).orders "ORD1" =
      some [] ∧
    oget ((alookup (paymentCallback ⟨true, [("ORD1", [])], [], [], []⟩
        [("billcode", .jstr "BC1"), ("order_id", .jstr "ORD1")] "T0" 7).store.orders
        "ORD1").getD []) "billcode" = .jstr "BC1" ∧
    oget ((alookup (paymentCallback ⟨true, [("ORD1", [])], [], [], []⟩
        [("billcode", .jstr "BC1"), ("order_id", .jstr "ORD1")] "T0" 7).store.orders
        "ORD1").getD []) "billCode" = .jstr "BC1" ∧
    (alookup (paymentCallback ⟨true, [("ORD1", [])], [], [], []⟩
        [("billcode", .jstr "BC1"), ("order_id", .jstr "ORD1")] "T0" 7).store.paymentsUnmatched
      "BC1").isSome = true := by
  refine ⟨?_, ?_, ?_, ?_, ?_, ?_, ?_⟩ <;> rfl

/-! ### Characterisations of the resolution stage -/

/-- The trimmed external order reference the heuristic path inspects. -/
def heuristicRef (payload : Obj) (nowIso : String) : String :=
  trimStr (jToString (oget (callbackPaymentData payload nowIso) "order_id"))

theorem truthy_null : truthy JVal.null = false := rfl

/-- How `resolveStage` behaves once both resolver lookups have failed and
the payload carries a truthy external order reference. -/
theorem resolveStage_heuristic (st : Store) (payload : Obj) (nowIso : String)
    (hres : resolveOrder st (callbackBillcode payload) = none)
    (hord : truthy (oget (callbackPaymentData payload nowIso) "order_id") = true) :
    resolveStage st payload nowIso =
      if strStartsWith (heuristicRef payload nowIso) "ORD" = true ∨
          10 < (heuristicRef payload nowIso).length then
        match alookup st.orders (heuristicRef payload nowIso) with
        | some orderData =>
          if truthy (oget orderData "billcode") = false ∧
              truthy (oget orderData "billCode") = false then
            (.jstr (heuristicRef payload nowIso), heuristicUserId orderData,
             { st with
                orders := updateEntry st.orders (heuristicRef payload nowIso)
                  [("billcode", .jstr (callbackBillcode payload)),
                   ("billCode", .jstr (callbackBillcode payload))] },
             [.backfilled (heuristicRef payload nowIso)])
          else
            (.jstr (heuristicRef payload nowIso), heuristicUserId orderData, st, [])
        | none => (.jstr (heuristicRef payload nowIso), .null, st, [])
      else (.null, .null, st, []) := by
  simp [resolveStage, hres, truthy_null, hord, heuristicRef]

theorem resolveStage_heuristic_backfill (st : Store) (payload : Obj)
    (nowIso : String)
    (hres : resolveOrder st (callbackBillcode payload) = none)
    (hord : truthy (oget (callbackPaymentData payload nowIso) "order_id") = true)
    (hacc : strStartsWith (heuristicRef payload nowIso) "ORD" = true ∨
      10 < (heuristicRef payload nowIso).length)
    (od : Obj) (horder : alookup st.orders (heuristicRef payload nowIso) = some od)
    (hemp : truthy (oget od "billcode") = false ∧
      truthy (oget od "billCode") = false) :
    resolveStage st payload nowIso =
      (.jstr (heuristicRef payload nowIso), heuristicUserId od,
       { st with
          orders := updateEntry st.orders (heuristicRef payload nowIso)
            [("billcode", .jstr (callbackBillcode payload)),
             ("billCode", .jstr (callbackBillcode payload))] },
       [.backfilled (heuristicRef payload nowIso)]) := by
  rw [resolveStage_heuristic st payload nowIso hres hord, if_pos hacc, horder]
  simp [hemp]

theorem resolveStage_heuristic_nofill (st : Store) (payload : Obj)
    (nowIso : String)
    (hres : resolveOrder st (callbackBillcode payload) = none)
    (hord : truthy (oget (callbackPaymentData payload nowIso) "order_id") = true)
    (hacc : strStartsWith (heuristicRef payload nowIso) "ORD" = true ∨
      10 < (heuristicRef payload nowIso).length)
    (od : Obj) (horder : alookup st.orders (heuristicRef payload nowIso) = some od)
    (hemp : ¬ (truthy (oget od "billcode") = false ∧
      truthy (oget od "billCode") = false)) :
    resolveStage st payload nowIso =
      (.jstr (heuristicRef payload nowIso), heuristicUserId od, st, []) := by
  rw [resolveStage_heuristic st payload nowIso hres hord, if_pos hacc, horder]
  simp [hemp]

theorem resolveStage_heuristic_unknown (st : Store) (payload : Obj)
    (nowIso : String)
    (hres : resolveOrder st (callbackBillcode payload) = none)
    (hord : truthy (oget (callbackPaymentData payload nowIso) "order_id") = true)
    (hacc : strStartsWith (heuristicRef payload nowIso) "ORD" = true ∨
      10 < (heuristicRef payload nowIso).length)
    (horder : alookup st.orders (heuristicRef payload nowIso) = none) :
    resolveStage st payload nowIso =
      (.jstr (heuristicRef payload nowIso), .null, st, []) := by
  rw [resolveStage_heuristic st payload nowIso hres hord, if_pos hacc, horder]

theorem resolveStage_heuristic_rejected (st : Store) (payload : Obj)
    (nowIso : String)
    (hres : resolveOrder st (callbackBillcode payload) = none)
    (hord : truthy (oget (callbackPaymentData payload nowIso) "order_id") = true)
    (hacc : ¬ (strStartsWith (heuristicRef payload nowIso) "ORD" = true ∨
      10 < (heuristicRef payload nowIso).length)) :
    resolveStage st payload nowIso = (.null, .null, st, []) := by
  rw [resolveStage_heuristic st payload nowIso hres hord, if_neg hacc]

/-- Claim C4: with both lookups failed and a truthy external order
reference carried by the payload, the handler accepts the (trimmed)
reference as the order identifier iff it starts with the fixed "ORD"
prefix or its length exceeds the threshold of 10; on acceptance it fetches
that order for its user identifier, and writes the billing code into the
order's two billcode fields iff both were previously empty (falsy). -/
theorem C4_heuristic_order_reference (st : Store) (payload : Obj)
    (nowIso : String)
    (hres : resolveOrder st (callbackBillcode payload) = none)
    (hord : truthy (oget (callbackPaymentData payload nowIso) "order_id") = true) :
    ((strStartsWith (heuristicRef payload nowIso) "ORD" = true ∨
        10 < (heuristicRef payload nowIso).length) →
      (resolveStage st payload nowIso).1 = .jstr (heuristicRef payload nowIso) ∧
      (∀ od, alookup st.orders (heuristicRef payload nowIso) = some od →
        (resolveStage st payload nowIso).2.1 = heuristicUserId od ∧
        ((truthy (oget od "billcode") = false ∧
            truthy (oget od "billCode") = false) →
          (resolveStage st payload nowIso).2.2.1.orders =
            updateEntry st.orders (heuristicRef payload nowIso)
              [("billcode", .jstr (callbackBillcode payload)),
               ("billCode", .jstr (callbackBillcode payload))] ∧
          oget ((alookup (resolveStage st payload nowIso).2.2.1.orders
              (heuristicRef payload nowIso)).getD []) "billcode" =
            .jstr (callbackBillcode payload) ∧
          oget ((alookup (resolveStage st payload nowIso).2.2.1.orders
              (heuristicRef payload nowIso)).getD []) "billCode" =
            .jstr (callbackBillcode payload)) ∧
        (¬ (truthy (oget od "billcode") = false ∧
            truthy (oget od "billCode") = false) →
          (resolveStage st payload nowIso).2.2.1 = st)) ∧
      (alookup st.orders (heuristicRef payload nowIso) = none →
        (resolveStage st payload nowIso).2.1 = .null ∧
        (resolveStage st payload nowIso).2.2.1 = st)) ∧
    (¬ (strStartsWith (heuristicRef payload nowIso) "ORD" = true ∨
        10 < (heuristicRef payload nowIso).length) →
      (resolveStage st payload nowIso).1 = .null ∧
      (resolveStage st payload nowIso).2.1 = .null ∧
      (resolveStage st payload nowIso).2.2.1 = st) := by
  constructor
  · intro hacc
    cases horder : alookup st.orders (heuristicRef payload nowIso) with
    | some od =>
      refine ⟨?_, ?_, ?_⟩
      · by_cases hemp : truthy (oget od "billcode") = false ∧
            truthy (oget od "billCode") = false
        · rw [resolveStage_heuristic_backfill st payload nowIso hres hord hacc
            od horder hemp]
        · rw [resolveStage_heuristic_nofill st payload nowIso hres hord hacc
            od horder hemp]
      · intro od' hod'
        have hodeq : od = od' := Option.some.inj (horder ▸ hod')
        subst hodeq
        by_cases hemp : truthy (oget od "billcode") = false ∧
            truthy (oget od "billCode") = false
        · rw [resolveStage_heuristic_backfill st payload nowIso hres hord hacc
            od horder hemp]
          refine ⟨rfl, fun _ => ⟨rfl, ?_, ?_⟩, fun hne => absurd hemp hne⟩
          · rw [oget_updateEntry_self]
            simp [olookup]
          · rw [oget_updateEntry_self]
            simp [olookup]
        · rw [resolveStage_heuristic_nofill st payload nowIso hres hord hacc
            od horder hemp]
          exact ⟨rfl, fun hq => absurd hq hemp, fun _ => rfl⟩
      · intro hnone
        simp at hnone
    | none =>
      rw [resolveStage_heuristic_unknown st payload nowIso hres hord hacc horder]
      refine ⟨rfl, ?_, fun _ => ⟨rfl, rfl⟩⟩
      intro od' hod'
      simp at hod'
  · intro hacc
    rw [resolveStage_heuristic_rejected st payload nowIso hres hord hacc]
    exact ⟨rfl, rfl, rfl⟩

/-- Witness for C4: an accepted ORD-prefixed reference naming an existing
order that has no billcode fields; the resolver output carries the
reference and the fetched userId, and the billcode is backfilled. -/
theorem C4_witness :
    (resolveStage ⟨true, [("ORD9", [("userId", .jstr "u9")])], [], [], []⟩
        [("billcode", .jstr "BX"), ("order_id", .jstr "ORD9")] "T").1 =
      .jstr (heuristicRef
        [("billcode", .jstr "BX"), ("order_id", .jstr "ORD9")] "T") ∧
    oget ((alookup (resolveStage
        ⟨true, [("ORD9", [("userId", .jstr "u9")])], [], [], []⟩
        [("billcode", .jstr "BX"), ("order_id", .jstr "ORD9")] "T").2.2.1.orders
        (heuristicRef
          [("billcode", .jstr "BX"), ("order_id", .jstr "ORD9")] "T")).getD [])
      "billcode" =
      .jstr (callbackBillcode
        [("billcode", .jstr "BX"), ("order_id", .jstr "ORD9")]) := by
  have h := (C4_heuristic_order_reference
      ⟨true, [("ORD9", [("userId", .jstr "u9")])], [], [], []⟩
      [("billcode", .jstr "BX"), ("order_id", .jstr "ORD9")] "T" rfl rfl).1
      (Or.inl rfl)
  have h2 := (h.2.1 [("userId", .jstr "u9")] rfl).2.1 ⟨rfl, rfl⟩
  exact ⟨h.1, h2.2.1⟩

/-! ### Frame lemmas for the resolution stage and recorder -/

end Tinta
